import Mathlib

/-!
Verification of the VOXA review-feed core: the Haversine distance helper
(`calculateDistance`), location validation (`processLocation`), and the
review feed handlers (community / following / group), modelled from
`src/server/reviews.ts`, the group router and the drizzle schema.

JavaScript IEEE-754 numbers are modelled symbolically: a value is either a
finite real (exact real arithmetic, abstracting from rounding), an infinity,
or NaN.  Missing (`undefined`/`null`) arguments are modelled with `Option`.
-/

namespace Voxa

/-- A JavaScript number: finite (modelled as an exact real), ±Infinity, or NaN. -/
inductive JsNumber where
  | finite (x : ℝ)
  | posInf
  | negInf
  | nan

namespace JsNumber

/-- JS `isNaN` on a number. -/
def isNaNB : JsNumber → Bool
  | nan => true
  | _ => false

/-- JS addition (`+`) on numbers: NaN propagates, `∞ + -∞ = NaN`. -/
def add : JsNumber → JsNumber → JsNumber
  | nan, _ => nan
  | _, nan => nan
  | finite x, finite y => finite (x + y)
  | finite _, posInf => posInf
  | posInf, finite _ => posInf
  | finite _, negInf => negInf
  | negInf, finite _ => negInf
  | posInf, posInf => posInf
  | negInf, negInf => negInf
  | posInf, negInf => nan
  | negInf, posInf => nan

/-- JS subtraction (`-`) on numbers: NaN propagates, `∞ - ∞ = NaN`. -/
def sub : JsNumber → JsNumber → JsNumber
  | nan, _ => nan
  | _, nan => nan
  | finite x, finite y => finite (x - y)
  | finite _, posInf => negInf
  | posInf, finite _ => posInf
  | finite _, negInf => posInf
  | negInf, finite _ => negInf
  | posInf, posInf => nan
  | negInf, negInf => nan
  | posInf, negInf => posInf
  | negInf, posInf => negInf

/-- JS multiplication (`*`) on numbers: NaN propagates, `0 * ∞ = NaN`
(signed zeros are not modelled). -/
noncomputable def mul : JsNumber → JsNumber → JsNumber
  | nan, _ => nan
  | _, nan => nan
  | finite x, finite y => finite (x * y)
  | finite x, posInf => if 0 < x then posInf else if x < 0 then negInf else nan
  | posInf, finite y => if 0 < y then posInf else if y < 0 then negInf else nan
  | finite x, negInf => if 0 < x then negInf else if x < 0 then posInf else nan
  | negInf, finite y => if 0 < y then negInf else if y < 0 then posInf else nan
  | posInf, posInf => posInf
  | negInf, negInf => posInf
  | posInf, negInf => negInf
  | negInf, posInf => negInf

/-- JS division (`/`) on numbers: NaN propagates, `x / 0` follows the
`+0` denominator convention, `∞ / ∞ = NaN` (signed zeros are not modelled). -/
noncomputable def div : JsNumber → JsNumber → JsNumber
  | nan, _ => nan
  | _, nan => nan
  | finite x, finite y =>
      if y = 0 then (if x = 0 then nan else if 0 < x then posInf else negInf)
      else finite (x / y)
  | finite _, posInf => finite 0
  | finite _, negInf => finite 0
  | posInf, finite y => if 0 ≤ y then posInf else negInf
  | negInf, finite y => if 0 ≤ y then negInf else posInf
  | posInf, posInf => nan
  | posInf, negInf => nan
  | negInf, posInf => nan
  | negInf, negInf => nan

/-- JS `Math.sin`: NaN on non-finite input. -/
noncomputable def sin : JsNumber → JsNumber
  | finite x => finite (Real.sin x)
  | _ => nan

/-- JS `Math.cos`: NaN on non-finite input. -/
noncomputable def cos : JsNumber → JsNumber
  | finite x => finite (Real.cos x)
  | _ => nan

/-- JS `Math.sqrt`: NaN on negative or NaN input, `√∞ = ∞`. -/
noncomputable def sqrt : JsNumber → JsNumber
  | finite x => if x < 0 then nan else finite (Real.sqrt x)
  | posInf => posInf
  | negInf => nan
  | nan => nan

end JsNumber

/-- Real-valued two-argument arctangent, the mathematical content of JS
`Math.atan2 y x` on finite arguments (signed zeros are not modelled,
so `atan2R 0 0 = 0`). -/
noncomputable def atan2R (y x : ℝ) : ℝ :=
  if 0 < x then Real.arctan (y / x)
  else if x < 0 then
    (if 0 ≤ y then Real.arctan (y / x) + Real.pi else Real.arctan (y / x) - Real.pi)
  else if 0 < y then Real.pi / 2
  else if y < 0 then -(Real.pi / 2)
  else 0

namespace JsNumber

/-- JS `Math.atan2` on numbers, following the IEEE special cases
(up to signed zeros, which are not modelled). -/
noncomputable def atan2 : JsNumber → JsNumber → JsNumber
  | nan, _ => nan
  | _, nan => nan
  | finite y, finite x => finite (atan2R y x)
  | finite _, posInf => finite 0
  | finite y, negInf => finite (if 0 ≤ y then Real.pi else -Real.pi)
  | posInf, finite _ => finite (Real.pi / 2)
  | negInf, finite _ => finite (-(Real.pi / 2))
  | posInf, posInf => finite (Real.pi / 4)
  | posInf, negInf => finite (3 * Real.pi / 4)
  | negInf, posInf => finite (-(Real.pi / 4))
  | negInf, negInf => finite (-(3 * Real.pi / 4))

end JsNumber

/-- Exact rounding to one decimal place, modelling
`Number(d.toFixed(1))` on a finite value. -/
noncomputable def round1 (x : ℝ) : ℝ := ((round (x * 10) : ℤ) : ℝ) / 10

namespace JsNumber

/-- `Number(d.toFixed(1))`: rounds a finite value to one decimal place;
`NaN`/`±Infinity` round-trip through the string form unchanged. -/
noncomputable def toFixed1 : JsNumber → JsNumber
  | finite x => finite (round1 x)
  | posInf => posInf
  | negInf => negInf
  | nan => nan

end JsNumber

/-- The validity test of `calculateDistance`:
`coord === undefined || coord === null || isNaN(coord)`.
`none` models an `undefined`/`null` argument. -/
def invalidCoord : Option JsNumber → Bool
  | none => true
  | some n => n.isNaNB

/-- `calculateDistance(lat1, lon1, lat2, lon2)` from `src/server/reviews.ts`:
validates the four coordinates, converts to radians, applies the
atan2-based Haversine formula with R = 6371 km, and rounds the result to
one decimal place.  `none` is the JS `undefined` return. -/
noncomputable def calculateDistance (lat1 lon1 lat2 lon2 : Option JsNumber) :
    Option JsNumber :=
  if invalidCoord lat1 || invalidCoord lon1 || invalidCoord lat2 || invalidCoord lon2 then
    none
  else
    let v1 := lat1.getD .nan
    let v2 := lon1.getD .nan
    let v3 := lat2.getD .nan
    let v4 := lon2.getD .nan
    let lat1Rad := (v1.mul (.finite Real.pi)).div (.finite 180)
    let lon1Rad := (v2.mul (.finite Real.pi)).div (.finite 180)
    let lat2Rad := (v3.mul (.finite Real.pi)).div (.finite 180)
    let lon2Rad := (v4.mul (.finite Real.pi)).div (.finite 180)
    let dLat := lat2Rad.sub lat1Rad
    let dLon := lon2Rad.sub lon1Rad
    let a := ((dLat.div (.finite 2)).sin.mul (dLat.div (.finite 2)).sin).add
      ((lat1Rad.cos.mul lat2Rad.cos).mul
        ((dLon.div (.finite 2)).sin.mul (dLon.div (.finite 2)).sin))
    let c := (JsNumber.finite 2).mul (JsNumber.atan2 a.sqrt (((JsNumber.finite 1).sub a).sqrt))
    let distance := (JsNumber.finite 6371).mul c
    some distance.toFixed1

/-- The distance formula as written in the specification (§4.3):
`a = sin²(Δlat/2) + cos(lat1)·cos(lat2)·sin²(Δlon/2)`,
`c = 2·atan2(√a, √(1−a))`, `distance = 6371·c`, with degree inputs
converted to radians and the output rounded to one decimal place. -/
noncomputable def haversineSpecKm (lat1 lon1 lat2 lon2 : ℝ) : ℝ :=
  let lat1Rad := lat1 * Real.pi / 180
  let lon1Rad := lon1 * Real.pi / 180
  let lat2Rad := lat2 * Real.pi / 180
  let lon2Rad := lon2 * Real.pi / 180
  let a := Real.sin ((lat2Rad - lat1Rad) / 2) ^ 2 +
    Real.cos lat1Rad * Real.cos lat2Rad * Real.sin ((lon2Rad - lon1Rad) / 2) ^ 2
  let c := 2 * atan2R (Real.sqrt a) (Real.sqrt (1 - a))
  round1 (6371 * c)

end Voxa

namespace Voxa

namespace JsNumber

theorem mul_finite_finite (x y : ℝ) : (finite x).mul (finite y) = finite (x * y) := rfl

theorem add_finite_finite (x y : ℝ) : (finite x).add (finite y) = finite (x + y) := rfl

theorem sub_finite_finite (x y : ℝ) : (finite x).sub (finite y) = finite (x - y) := rfl

theorem div_finite_finite {y : ℝ} (x : ℝ) (hy : y ≠ 0) :
    (finite x).div (finite y) = finite (x / y) := by
  simp [div, hy]

theorem div_finite_180 (x : ℝ) : (finite x).div (finite 180) = finite (x / 180) :=
  div_finite_finite x (by norm_num)

theorem div_finite_two (x : ℝ) : (finite x).div (finite 2) = finite (x / 2) :=
  div_finite_finite x (by norm_num)

theorem sin_finite (x : ℝ) : (finite x).sin = finite (Real.sin x) := rfl

theorem cos_finite (x : ℝ) : (finite x).cos = finite (Real.cos x) := rfl

theorem sqrt_finite_of_nonneg {x : ℝ} (hx : 0 ≤ x) :
    (finite x).sqrt = finite (Real.sqrt x) := by
  simp [sqrt, not_lt.mpr hx]

theorem atan2_finite_finite (y x : ℝ) :
    atan2 (finite y) (finite x) = finite (atan2R y x) := rfl

theorem toFixed1_finite (x : ℝ) : (finite x).toFixed1 = finite (round1 x) := rfl

end JsNumber

/-- The Haversine intermediate `a` lies in `[0, 1]` for all real radian
inputs, so both square roots in the formula are taken of nonnegative
arguments. -/
theorem hav_bounds (p q d : ℝ) :
    0 ≤ Real.sin ((q - p) / 2) * Real.sin ((q - p) / 2) +
        Real.cos p * Real.cos q * (Real.sin (d / 2) * Real.sin (d / 2)) ∧
      Real.sin ((q - p) / 2) * Real.sin ((q - p) / 2) +
        Real.cos p * Real.cos q * (Real.sin (d / 2) * Real.sin (d / 2)) ≤ 1 := by
  have h1 : Real.sin ((q - p) / 2) * Real.sin ((q - p) / 2) =
      1 / 2 - Real.cos (q - p) / 2 := by
    have h := Real.sin_sq_eq_half_sub ((q - p) / 2)
    rw [show 2 * ((q - p) / 2) = q - p by ring] at h
    nlinarith [h]
  have h2 : Real.sin (d / 2) * Real.sin (d / 2) = 1 / 2 - Real.cos d / 2 := by
    have h := Real.sin_sq_eq_half_sub (d / 2)
    rw [show 2 * (d / 2) = d by ring] at h
    nlinarith [h]
  have h3 : Real.cos (q - p) = Real.cos q * Real.cos p + Real.sin q * Real.sin p :=
    Real.cos_sub q p
  have hp := Real.sin_sq_add_cos_sq p
  have hq := Real.sin_sq_add_cos_sq q
  have hd1 := Real.neg_one_le_cos d
  have hd2 := Real.cos_le_one d
  rw [h1, h2, h3]
  constructor
  · nlinarith [mul_nonneg (by linarith : (0:ℝ) ≤ 1 + Real.cos d)
        (sq_nonneg (Real.sin p - Real.sin q)),
      mul_nonneg (by linarith : (0:ℝ) ≤ 1 + Real.cos d)
        (sq_nonneg (Real.cos p - Real.cos q)),
      mul_nonneg (by linarith : (0:ℝ) ≤ 1 - Real.cos d)
        (sq_nonneg (Real.sin p - Real.sin q)),
      mul_nonneg (by linarith : (0:ℝ) ≤ 1 - Real.cos d)
        (sq_nonneg (Real.cos p + Real.cos q))]
  · nlinarith [mul_nonneg (by linarith : (0:ℝ) ≤ 1 + Real.cos d)
        (sq_nonneg (Real.sin p + Real.sin q)),
      mul_nonneg (by linarith : (0:ℝ) ≤ 1 + Real.cos d)
        (sq_nonneg (Real.cos p + Real.cos q)),
      mul_nonneg (by linarith : (0:ℝ) ≤ 1 - Real.cos d)
        (sq_nonneg (Real.sin p + Real.sin q)),
      mul_nonneg (by linarith : (0:ℝ) ≤ 1 - Real.cos d)
        (sq_nonneg (Real.cos p - Real.cos q))]

/-- On four finite coordinates the code path of `calculateDistance`
evaluates to exactly the specification formula `haversineSpecKm`. -/
theorem calcDistance_finite_eq (lat1 lon1 lat2 lon2 : ℝ) :
    calculateDistance (some (.finite lat1)) (some (.finite lon1))
      (some (.finite lat2)) (some (.finite lon2)) =
    some (.finite (haversineSpecKm lat1 lon1 lat2 lon2)) := by
  obtain ⟨hb0, hb1⟩ := hav_bounds (lat1 * Real.pi / 180) (lat2 * Real.pi / 180)
    (lon2 * Real.pi / 180 - lon1 * Real.pi / 180)
  simp only [calculateDistance, invalidCoord, JsNumber.isNaNB, Bool.or_self,
    Bool.or_false, Bool.false_or, if_false, Option.getD_some,
    JsNumber.mul_finite_finite, JsNumber.div_finite_180, JsNumber.div_finite_two,
    JsNumber.sub_finite_finite, JsNumber.sin_finite, JsNumber.cos_finite,
    JsNumber.add_finite_finite]
  rw [JsNumber.sqrt_finite_of_nonneg hb0,
    JsNumber.sqrt_finite_of_nonneg (by linarith : (0:ℝ) ≤ 1 -
      (Real.sin ((lat2 * Real.pi / 180 - lat1 * Real.pi / 180) / 2) *
          Real.sin ((lat2 * Real.pi / 180 - lat1 * Real.pi / 180) / 2) +
        Real.cos (lat1 * Real.pi / 180) * Real.cos (lat2 * Real.pi / 180) *
          (Real.sin ((lon2 * Real.pi / 180 - lon1 * Real.pi / 180) / 2) *
           Real.sin ((lon2 * Real.pi / 180 - lon1 * Real.pi / 180) / 2))))]
  simp only [JsNumber.atan2_finite_finite, JsNumber.mul_finite_finite,
    JsNumber.toFixed1_finite, haversineSpecKm, pow_two]
  norm_num

end Voxa

namespace Voxa

namespace JsNumber

theorem nan_mul (b : JsNumber) : nan.mul b = nan := by cases b <;> rfl

theorem mul_nan (a : JsNumber) : a.mul nan = nan := by cases a <;> rfl

theorem nan_add (b : JsNumber) : nan.add b = nan := by cases b <;> rfl

theorem posInf_mul_finite {y : ℝ} (hy : 0 < y) : posInf.mul (finite y) = posInf := by
  simp [mul, hy]

theorem posInf_div_finite {y : ℝ} (hy : 0 ≤ y) : posInf.div (finite y) = posInf := by
  simp [div, hy]

theorem negInf_div_finite {y : ℝ} (hy : 0 ≤ y) : negInf.div (finite y) = negInf := by
  simp [div, hy]

theorem finite_sub_posInf (x : ℝ) : (finite x).sub posInf = negInf := rfl

theorem sub_nan (a : JsNumber) : a.sub nan = nan := by cases a <;> rfl

theorem sin_negInf : negInf.sin = nan := rfl

theorem cos_posInf : posInf.cos = nan := rfl

theorem sqrt_nan : nan.sqrt = nan := rfl

theorem atan2_nan (b : JsNumber) : atan2 nan b = nan := by cases b <;> rfl

theorem toFixed1_nan : nan.toFixed1 = nan := rfl

end JsNumber

/-- The specification formula is symmetric in its two endpoints. -/
theorem haversineSpec_symm (lat1 lon1 lat2 lon2 : ℝ) :
    haversineSpecKm lat1 lon1 lat2 lon2 = haversineSpecKm lat2 lon2 lat1 lon1 := by
  simp only [haversineSpecKm]
  have e1 : (lat1 * Real.pi / 180 - lat2 * Real.pi / 180) / 2 =
      -((lat2 * Real.pi / 180 - lat1 * Real.pi / 180) / 2) := by ring
  have e2 : (lon1 * Real.pi / 180 - lon2 * Real.pi / 180) / 2 =
      -((lon2 * Real.pi / 180 - lon1 * Real.pi / 180) / 2) := by ring
  rw [e1, e2, Real.sin_neg, Real.sin_neg]
  ring_nf

end Voxa

namespace Voxa

/-- C1: for all valid finite coordinate inputs, `calculateDistance` returns the
Haversine great-circle distance in kilometers computed with the atan2-based
formula `a = sin²(Δlat/2) + cos(lat1)·cos(lat2)·sin²(Δlon/2)`,
`c = 2·atan2(√a, √(1−a))`, `distance = 6371·c`, rounded to one decimal place
(the formula as written in the spec, `haversineSpecKm`). -/
theorem calculateDistance_matches_haversineSpec (lat1 lon1 lat2 lon2 : ℝ) :
    calculateDistance (some (.finite lat1)) (some (.finite lon1))
      (some (.finite lat2)) (some (.finite lon2)) =
    some (.finite (haversineSpecKm lat1 lon1 lat2 lon2)) :=
  calcDistance_finite_eq lat1 lon1 lat2 lon2

/-- C2 counterexample: an infinite latitude is NOT rejected by the validation
(`isNaN(Infinity)` is false), and `calculateDistance` returns the number `NaN`
rather than `undefined`, contradicting the claim that every non-finite
coordinate yields "no distance". -/
theorem calculateDistance_infinite_coord_cex :
    calculateDistance (some .posInf) (some (.finite 0)) (some (.finite 0))
        (some (.finite 0)) = some .nan ∧
      calculateDistance (some .posInf) (some (.finite 0)) (some (.finite 0))
        (some (.finite 0)) ≠ none := by
  have h : calculateDistance (some .posInf) (some (.finite 0)) (some (.finite 0))
      (some (.finite 0)) = some .nan := by
    simp only [calculateDistance, invalidCoord, JsNumber.isNaNB, Bool.or_self,
      Bool.or_false, Bool.false_or, Option.getD_some,
      JsNumber.posInf_mul_finite Real.pi_pos,
      JsNumber.posInf_div_finite (by norm_num : (0:ℝ) ≤ 180),
      JsNumber.mul_finite_finite, JsNumber.div_finite_180,
      JsNumber.finite_sub_posInf, JsNumber.sub_finite_finite,
      JsNumber.negInf_div_finite (by norm_num : (0:ℝ) ≤ 2),
      JsNumber.div_finite_two, JsNumber.sin_negInf, JsNumber.sin_finite,
      JsNumber.cos_posInf, JsNumber.cos_finite, JsNumber.nan_mul,
      JsNumber.mul_nan, JsNumber.nan_add, JsNumber.sub_nan, JsNumber.sqrt_nan,
      JsNumber.atan2_nan, JsNumber.toFixed1_nan]
    norm_num
  exact ⟨h, by rw [h]; exact Option.some_ne_none _⟩

/-- C2 (amended): `calculateDistance` returns `undefined` exactly when one of
the four coordinates is missing (`undefined`/`null`) or is `NaN`; an infinite
coordinate passes the validation (the code only checks `isNaN`) and produces a
numeric result instead. -/
theorem calculateDistance_undefined_iff (lat1 lon1 lat2 lon2 : Option JsNumber) :
    calculateDistance lat1 lon1 lat2 lon2 = none ↔
      (invalidCoord lat1 || invalidCoord lon1 || invalidCoord lat2 ||
        invalidCoord lon2) = true := by
  simp only [calculateDistance]
  split
  · simp_all
  · simp_all

/-- C3: for all valid (finite) coordinate pairs `a = (lat1, lon1)` and
`b = (lat2, lon2)`, `calculateDistance a b = calculateDistance b a`. -/
theorem calculateDistance_symm (lat1 lon1 lat2 lon2 : ℝ) :
    calculateDistance (some (.finite lat1)) (some (.finite lon1))
      (some (.finite lat2)) (some (.finite lon2)) =
    calculateDistance (some (.finite lat2)) (some (.finite lon2))
      (some (.finite lat1)) (some (.finite lon1)) := by
  rw [calcDistance_finite_eq, calcDistance_finite_eq, haversineSpec_symm]

end Voxa

namespace Voxa

/-- JS truthiness of an optional JSON number: `undefined`/`null` and `0` are
falsy (JSON numbers are exact decimals, modelled as rationals). -/
def qFalsy : Option ℚ → Bool
  | none => true
  | some x => x == 0

/-- JS truthiness of an optional string: `undefined`/`null` and `""` are falsy. -/
def strFalsy : Option String → Bool
  | none => true
  | some s => s == ""

/-- JS truthiness of an optional integer: `undefined`/`null` and `0` are falsy. -/
def intFalsy : Option Int → Bool
  | none => true
  | some n => n == 0

/-- The `coordinates` object of a review-location JSON value; either field may
be absent. -/
structure CoordsJson where
  lat : Option ℚ := none
  lng : Option ℚ := none
deriving DecidableEq

/-- A review `location` JSON value as stored in the `reviews.location` jsonb
column (`city?`, `country?`, `coordinates?`) or sent in a POST /reviews body
(which may also carry `formatted_address`). -/
structure LocationJson where
  city : Option String := none
  country : Option String := none
  coordinates : Option CoordsJson := none
  formatted_address : Option String := none
deriving DecidableEq

/-- The validated coordinates of a processed location. -/
structure LocCoordinates where
  lat : ℚ
  lng : ℚ

/-- The `LocationData` shape produced by `processLocation`: validated
coordinates, a formatted address, and an optional computed distance.
(`city`/`country` exist in the interface but are never set by the code.) -/
structure LocationData where
  coordinates : LocCoordinates
  formatted_address : String
  distance : Option JsNumber := none
  city : Option String := none
  country : Option String := none

/-- `processLocation(location, userLat?, userLng?)` from `src/server/reviews.ts`:
returns `null` for a missing/non-object location, for missing coordinates, and
for any coordinate that is JS-falsy (which conflates `0` with "missing");
otherwise builds the processed location and, when both user coordinates are
numbers, annotates it with `calculateDistance` (the annotation is skipped when
that returns `undefined`). -/
noncomputable def processLocation (location : Option LocationJson)
    (userLat userLng : Option ℚ) : Option LocationData :=
  match location with
  | none => none
  | some loc =>
    match loc.coordinates with
    | none => none
    | some c =>
      if qFalsy c.lat || qFalsy c.lng then none
      else
        let base : LocationData :=
          { coordinates := { lat := c.lat.getD 0, lng := c.lng.getD 0 },
            formatted_address := loc.formatted_address.getD "" }
        match userLat, userLng with
        | some ula, some uln =>
            let distance :=
              calculateDistance (some (.finite (ula : ℝ))) (some (.finite (uln : ℝ)))
                (some (.finite ((c.lat.getD 0 : ℚ) : ℝ)))
                (some (.finite ((c.lng.getD 0 : ℚ) : ℝ)))
            some { base with distance := distance }
        | _, _ => some base

/-- A row of the `users` table (fields irrelevant to the feed core omitted). -/
structure User where
  id : Nat
  username : String
deriving DecidableEq

/-- A row of the `reviews` table. -/
structure Review where
  id : Nat
  userId : Nat
  placeId : String
  placeName : Option String := none
  rating : Int
  comment : Option String := none
  isPublic : Bool := true
  groupId : Option Nat := none
  location : Option LocationJson := none
  createdAt : Nat
deriving DecidableEq

/-- A row of the `review_likes` table. -/
structure ReviewLike where
  id : Nat
  reviewId : Nat
  userId : Nat
  createdAt : Nat
deriving DecidableEq

/-- A row of the `follows` table. -/
structure Follow where
  id : Nat
  followerId : Nat
  followingId : Nat
deriving DecidableEq

/-- A row of the `group_members` table. -/
structure GroupMember where
  id : Nat
  groupId : Nat
  userId : Nat
  role : String := "member"
deriving DecidableEq

/-- A row of the `groups` table (fields irrelevant to the feed core omitted). -/
structure Group where
  id : Nat
  name : String
deriving DecidableEq

/-- The database state relevant to the review-feed core. -/
structure DB where
  users : List User := []
  follows : List Follow := []
  groups : List Group := []
  groupMembers : List GroupMember := []
  reviews : List Review := []
  reviewLikes : List ReviewLike := []
deriving DecidableEq

/-- `count(review_likes.id)` grouped by review: the number of like rows for a
review. -/
def likesCount (db : DB) (reviewId : Nat) : Nat :=
  (db.reviewLikes.filter fun l => l.reviewId == reviewId).length

/-- The `EXISTS (SELECT 1 FROM review_likes WHERE review_id = ? AND user_id = ?)`
subquery. -/
def isLikedBy (db : DB) (reviewId userId : Nat) : Bool :=
  db.reviewLikes.any fun l => l.reviewId == reviewId && l.userId == userId

/-- The group-membership check used by the group-review and review-create
handlers. -/
def isMember (db : DB) (groupId userId : Nat) : Bool :=
  db.groupMembers.any fun m => m.groupId == groupId && m.userId == userId

/-- JS truthiness of an optional id (`req.user?.id`, `groupId`): absent and `0`
are falsy. -/
def truthyId : Option Nat → Option Nat
  | none => none
  | some n => if n = 0 then none else some n

/-- The `groupName` correlated subquery of the community feed: the first row of
`group_members` joined with `groups` for the review's group (so a group with no
members resolves to no name). -/
def groupNameOf (db : DB) (groupId : Option Nat) : Option String :=
  match groupId with
  | none => none
  | some g =>
      match db.groupMembers.find? (fun m => m.groupId == g) with
      | none => none
      | some _ => (db.groups.find? fun gr => gr.id == g).map fun gr => gr.name

/-- `ORDER BY created_at DESC` as executed by the model: a stable sort by
`createdAt` descending.  The SQL query itself specifies no tie-break, so the
database may return equal-`createdAt` rows in any order; the model fixes one
representative order. -/
def sortFeed (rows : List (Review × User)) : List (Review × User) :=
  List.insertionSort (fun a b => b.1.createdAt ≤ a.1.createdAt) rows

/-- A row list is ordered newest first by `createdAt`. -/
def newestFirstSorted (rows : List (Review × User)) : Prop :=
  List.Sorted (fun a b : Review × User => b.1.createdAt ≤ a.1.createdAt) rows

/-- The contract `ORDER BY created_at DESC` imposes on a result: some
permutation of the candidate rows that is sorted newest first.  Any such list
is a legal database answer. -/
def validFeedOrder (cand out : List (Review × User)) : Prop :=
  out.Perm cand ∧ newestFirstSorted out

/-- Candidate set of GET /reviews/community: public reviews inner-joined with
their author (grouped by review, so each review appears once). -/
def communityCandidates (db : DB) : List (Review × User) :=
  (db.reviews.filter fun r => r.isPublic).filterMap fun r =>
    (db.users.find? fun u => u.id == r.userId).map fun u => (r, u)

/-- Candidate set of GET /reviews/following: public reviews whose author the
viewer follows, inner-joined with their author (grouped by review). -/
def followingCandidates (db : DB) (viewerId : Nat) : List (Review × User) :=
  (db.reviews.filter fun r =>
      r.isPublic && db.follows.any fun f =>
        f.followerId == viewerId && f.followingId == r.userId).filterMap fun r =>
    (db.users.find? fun u => u.id == r.userId).map fun u => (r, u)

/-- Candidate set of GET /groups/:groupId/reviews: reviews of that group
(no `isPublic` condition), inner-joined with their author. -/
def groupCandidates (db : DB) (groupId : Nat) : List (Review × User) :=
  (db.reviews.filter fun r => r.groupId == some groupId).filterMap fun r =>
    (db.users.find? fun u => u.id == r.userId).map fun u => (r, u)

/-- A formatted row of the community feed response. -/
structure CommunityRow where
  id : Nat
  placeId : String
  placeName : Option String
  rating : Int
  comment : Option String
  createdAt : Nat
  username : String
  location : Option LocationData
  groupId : Option Nat
  groupName : Option String
  likes : Nat
  isLiked : Bool

/-- Formatting pass of the community feed: select columns, resolve group name,
likes count, the per-viewer `isLiked` flag (`userId ? EXISTS(...) : false`),
and process the stored location. -/
noncomputable def formatCommunityRow (db : DB) (viewer : Option Nat)
    (userLat userLng : Option ℚ) (p : Review × User) : CommunityRow :=
  { id := p.1.id
    placeId := p.1.placeId
    placeName := p.1.placeName
    rating := p.1.rating
    comment := p.1.comment
    createdAt := p.1.createdAt
    username := p.2.username
    location := match p.1.location with
      | some l => processLocation (some l) userLat userLng
      | none => none
    groupId := p.1.groupId
    groupName := groupNameOf db p.1.groupId
    likes := likesCount db p.1.id
    isLiked := match truthyId viewer with
      | some v => isLikedBy db p.1.id v
      | none => false }

/-- GET /reviews/community: rejects unauthenticated requests with 401, then
returns every public review with author, likes, `isLiked` and processed
location, newest first. -/
noncomputable def getCommunity (db : DB) (auth : Option Nat)
    (userLat userLng : Option ℚ) : Except (Nat × String) (List CommunityRow) :=
  match auth with
  | none => .error (401, "Not authenticated")
  | some _ => .ok ((sortFeed (communityCandidates db)).map
      (formatCommunityRow db auth userLat userLng))

/-- A formatted row of the following feed response. -/
structure FollowingRow where
  id : Nat
  placeId : String
  placeName : Option String
  rating : Int
  comment : Option String
  createdAt : Nat
  username : String
  location : Option LocationData
  likes : Nat
  isLiked : Bool

/-- Formatting pass of the following feed. -/
noncomputable def formatFollowingRow (db : DB) (viewerId : Nat)
    (userLat userLng : Option ℚ) (p : Review × User) : FollowingRow :=
  { id := p.1.id
    placeId := p.1.placeId
    placeName := p.1.placeName
    rating := p.1.rating
    comment := p.1.comment
    createdAt := p.1.createdAt
    username := p.2.username
    location := match p.1.location with
      | some l => processLocation (some l) userLat userLng
      | none => none
    likes := likesCount db p.1.id
    isLiked := isLikedBy db p.1.id viewerId }

/-- GET /reviews/following: rejects requests without a truthy `req.user?.id`
with 401, then returns the public reviews of followed authors, newest first. -/
noncomputable def getFollowing (db : DB) (auth : Option Nat)
    (userLat userLng : Option ℚ) : Except (Nat × String) (List FollowingRow) :=
  match truthyId auth with
  | none => .error (401, "Not authenticated")
  | some v => .ok ((sortFeed (followingCandidates db v)).map
      (formatFollowingRow db v userLat userLng))

/-- A formatted row of the group-reviews response (raw stored location, no
processing in this handler). -/
structure GroupReviewRow where
  id : Nat
  userId : Nat
  placeId : String
  placeName : Option String
  rating : Int
  comment : Option String
  createdAt : Nat
  username : String
  location : Option LocationJson
deriving DecidableEq

/-- Formatting pass of the group-reviews feed. -/
def formatGroupRow (p : Review × User) : GroupReviewRow :=
  { id := p.1.id
    userId := p.1.userId
    placeId := p.1.placeId
    placeName := p.1.placeName
    rating := p.1.rating
    comment := p.1.comment
    createdAt := p.1.createdAt
    username := p.2.username
    location := p.1.location }

/-- GET /groups/:groupId/reviews from the group router: the router-level
`requireAuth` middleware rejects any request without a truthy `req.user?.id`
with 401 "Not authenticated" before the handler runs; then a non-member gets
403; a member gets the group's reviews (regardless of `isPublic`), newest
first. -/
def getGroupReviews (db : DB) (auth : Option Nat) (groupId : Nat) :
    Except (Nat × String) (List GroupReviewRow) :=
  match truthyId auth with
  | none => .error (401, "Not authenticated")
  | some uid =>
    if isMember db groupId uid then
      .ok ((sortFeed (groupCandidates db groupId)).map formatGroupRow)
    else .error (403, "Not a member of this group")

/-- Next value of the `review_likes.id` serial column. -/
def nextLikeId (db : DB) : Nat := (db.reviewLikes.map fun l => l.id).foldr max 0 + 1

/-- Next value of the `reviews.id` serial column. -/
def nextReviewId (db : DB) : Nat := (db.reviews.map fun r => r.id).foldr max 0 + 1

/-- POST /reviews/:reviewId/like: 401 without a truthy user id; 400 when a like
row for (review, user) already exists; otherwise inserts the like row and
returns 201. -/
def likeHandler (db : DB) (auth : Option Nat) (reviewId : Nat) (now : Nat) :
    Except (Nat × String) Nat × DB :=
  match truthyId auth with
  | none => (.error (401, "Not authenticated"), db)
  | some uid =>
    if isLikedBy db reviewId uid then
      (.error (400, "Already liked this review"), db)
    else
      (.ok 201,
        { db with reviewLikes := db.reviewLikes ++
            [{ id := nextLikeId db, reviewId := reviewId, userId := uid,
               createdAt := now }] })

/-- DELETE /reviews/:reviewId/like: 401 without a truthy user id; otherwise
deletes any matching like rows and returns 204 (also when nothing matched). -/
def unlikeHandler (db : DB) (auth : Option Nat) (reviewId : Nat) :
    Except (Nat × String) Nat × DB :=
  match truthyId auth with
  | none => (.error (401, "Not authenticated"), db)
  | some uid =>
      (.ok 204, { db with reviewLikes :=
        db.reviewLikes.filter fun l => !(l.reviewId == reviewId && l.userId == uid) })

/-- The JSON body of POST /reviews. -/
structure ReviewBody where
  placeId : Option String := none
  rating : Option Int := none
  comment : Option String := none
  placeName : Option String := none
  location : Option LocationJson := none
  groupId : Option Nat := none
deriving DecidableEq

/-- The group gate of POST /reviews: with a truthy `groupId`, the author must
be a member of that group. -/
def groupGate (db : DB) (uid : Nat) (body : ReviewBody) : Bool :=
  match truthyId body.groupId with
  | some g => !(isMember db g uid)
  | none => false

/-- The processed location as it is stored back into the `location` jsonb
column (the POST handler computes it without user coordinates, so no distance
field is present). -/
def LocationData.toJson (d : LocationData) : LocationJson :=
  { city := d.city
    country := d.country
    coordinates := some { lat := some d.coordinates.lat, lng := some d.coordinates.lng }
    formatted_address := some d.formatted_address }

/-- The review row inserted by POST /reviews. -/
def mkNewReview (db : DB) (uid : Nat) (body : ReviewBody) (ploc : LocationData)
    (now : Nat) : Review :=
  { id := nextReviewId db
    userId := uid
    placeId := body.placeId.getD ""
    placeName := if strFalsy body.placeName then none else body.placeName
    rating := body.rating.getD 0
    comment := some (body.comment.getD "")
    isPublic := true
    groupId := truthyId body.groupId
    location := some ploc.toJson
    createdAt := now }

/-- POST /reviews: 401 without a truthy user id; 400 when `placeId` or
`rating` is falsy; 403 when a truthy `groupId` is given and the author is not
a member; 400 ("Invalid location data") when `processLocation(location)`
returns null — which includes a missing location; otherwise inserts the review
and returns it with 201. -/
noncomputable def postReview (db : DB) (auth : Option Nat) (body : ReviewBody)
    (now : Nat) : Except (Nat × String) (Nat × Review) × DB :=
  match truthyId auth with
  | none => (.error (401, "Not authenticated"), db)
  | some uid =>
    if strFalsy body.placeId || intFalsy body.rating then
      (.error (400, "Missing required fields"), db)
    else if groupGate db uid body then
      (.error (403, "Not a member of this group"), db)
    else
      match processLocation body.location none none with
      | none => (.error (400, "Invalid location data"), db)
      | some ploc =>
          (.ok (201, mkNewReview db uid body ploc now),
            { db with reviews := db.reviews ++ [mkNewReview db uid body ploc now] })

end Voxa

namespace Voxa

/-- The model's `ORDER BY created_at DESC` output is newest first. -/
theorem sortFeed_sorted (rows : List (Review × User)) :
    newestFirstSorted (sortFeed rows) := by
  letI : IsTotal (Review × User) (fun a b => b.1.createdAt ≤ a.1.createdAt) :=
    ⟨fun a b => le_total b.1.createdAt a.1.createdAt⟩
  letI : IsTrans (Review × User) (fun a b => b.1.createdAt ≤ a.1.createdAt) :=
    ⟨fun a b c hab hbc => le_trans hbc hab⟩
  exact List.sorted_insertionSort _ rows

/-- The model's `ORDER BY created_at DESC` output is a permutation of the
candidate rows. -/
theorem sortFeed_perm (rows : List (Review × User)) : (sortFeed rows).Perm rows :=
  List.perm_insertionSort _ rows

/-- Membership characterization of the review-author join shared by all three
feeds: `r` occurs (with some author row) in the filtered join exactly when `r`
passes the filter and some user row carries its author id. -/
theorem joinedCandidates_mem_iff (reviews : List Review) (users : List User)
    (p : Review → Bool) (r : Review) :
    (∃ u, (r, u) ∈ (reviews.filter p).filterMap fun r' =>
        (users.find? fun u' => u'.id == r'.userId).map fun u' => (r', u')) ↔
      (r ∈ reviews ∧ p r = true ∧ ∃ u ∈ users, u.id = r.userId) := by
  constructor
  · rintro ⟨u, hu⟩
    obtain ⟨r', hr', hmap⟩ := List.mem_filterMap.mp hu
    obtain ⟨u', hfind, heq⟩ := Option.map_eq_some'.mp hmap
    injection heq with h1 h2
    have hmem := List.mem_filter.mp hr'
    rw [h1] at hmem hfind
    refine ⟨hmem.1, hmem.2, u', List.mem_of_find?_eq_some hfind, ?_⟩
    have hbeq := List.find?_some hfind
    exact beq_iff_eq.mp hbeq
  · rintro ⟨hmem, hp, u, hu, hid⟩
    have hsome : (users.find? fun u' => u'.id == r.userId).isSome = true := by
      rw [List.find?_isSome]
      exact ⟨u, hu, by simp [hid]⟩
    obtain ⟨u', hfind⟩ := Option.isSome_iff_exists.mp hsome
    exact ⟨u', List.mem_filterMap.mpr
      ⟨r, List.mem_filter.mpr ⟨hmem, hp⟩, by rw [hfind]; rfl⟩⟩

/-- Concrete database for the community-feed counterexample: one public review
with an existing author. -/
def c4Db : DB :=
  { users := [{ id := 1, username := "alice" }],
    reviews := [{ id := 1, userId := 1, placeId := "p1", rating := 5,
                  createdAt := 10 }] }

/-- C4 counterexample: a GET /reviews/community request with no authenticated
viewer does NOT succeed — the handler checks `req.isAuthenticated()` first and
fails with 401, even though the database holds a public review. -/
theorem community_unauthenticated_cex :
    getCommunity c4Db none none none = .error (401, "Not authenticated") := rfl

/-- C4 (amended): GET /reviews/community requires authentication — an
unauthenticated request fails with 401; for an authenticated viewer it returns
exactly the `isPublic` reviews having an existing author row, newest first;
the `isLiked = false` branch exists only for a falsy viewer id. -/
theorem community_requires_auth_and_scope (db : DB) (v : Nat) (la ln : Option ℚ) :
    getCommunity db none la ln = .error (401, "Not authenticated") ∧
    getCommunity db (some v) la ln =
      .ok ((sortFeed (communityCandidates db)).map
        (formatCommunityRow db (some v) la ln)) ∧
    (∀ r : Review, (∃ u, (r, u) ∈ communityCandidates db) ↔
      (r ∈ db.reviews ∧ r.isPublic = true ∧ ∃ u ∈ db.users, u.id = r.userId)) ∧
    (∀ p : Review × User, (formatCommunityRow db none la ln p).isLiked = false) := by
  refine ⟨rfl, rfl, ?_, fun p => rfl⟩
  intro r
  exact joinedCandidates_mem_iff db.reviews db.users (fun r' => r'.isPublic) r

/-- C5: every row of the following feed is a public review whose author the
viewer follows via a Follow edge (and no other review appears). -/
theorem followingFeed_only_followed_public (db : DB) (v : Nat) :
    ((sortFeed (followingCandidates db v)).all fun p =>
      p.1.isPublic && db.follows.any fun f =>
        f.followerId == v && f.followingId == p.1.userId) = true := by
  rw [List.all_eq_true]
  intro p hp
  have hp' : p ∈ followingCandidates db v := ((sortFeed_perm _).mem_iff).mp hp
  obtain ⟨r', hr', hmap⟩ := List.mem_filterMap.mp hp'
  obtain ⟨u', _, heq⟩ := Option.map_eq_some'.mp hmap
  have hfilter := (List.mem_filter.mp hr').2
  rw [← heq] at *
  exact hfilter

/-- C6: for an authenticated viewer (truthy user id, the only kind the
router's `requireAuth` middleware lets through), GET /groups/:groupId/reviews
returns the group's reviews (regardless of `isPublic`) exactly when the viewer
is a member of the group, and fails with 403 exactly when the viewer is not a
member. -/
theorem groupReviews_member_gate (db : DB) (uid gid : Nat) (huid : uid ≠ 0) :
    (getGroupReviews db (some uid) gid = .error (403, "Not a member of this group") ↔
      isMember db gid uid = false) ∧
    (getGroupReviews db (some uid) gid =
        .ok ((sortFeed (groupCandidates db gid)).map formatGroupRow) ↔
      isMember db gid uid = true) ∧
    (∀ r : Review, (∃ u, (r, u) ∈ groupCandidates db gid) ↔
      (r ∈ db.reviews ∧ r.groupId = some gid ∧ ∃ u ∈ db.users, u.id = r.userId)) := by
  have htr : truthyId (some uid) = some uid := by simp [truthyId, huid]
  refine ⟨?_, ?_, ?_⟩
  · cases h : isMember db gid uid <;> simp [getGroupReviews, htr, h]
  · cases h : isMember db gid uid <;> simp [getGroupReviews, htr, h]
  · intro r
    have := joinedCandidates_mem_iff db.reviews db.users
      (fun r' => r'.groupId == some gid) r
    simpa [groupCandidates, beq_iff_eq] using this

/-- Concrete database for the group-gate witness: group 7 with member user 1,
holding one private group review; user 2 is not a member. -/
def c6Db : DB :=
  { users := [{ id := 1, username := "alice" }, { id := 2, username := "bob" }],
    groups := [{ id := 7, name := "hikers" }],
    groupMembers := [{ id := 1, groupId := 7, userId := 1 }],
    reviews := [{ id := 1, userId := 1, placeId := "p1", rating := 5,
                  isPublic := false, groupId := some 7, createdAt := 10 }] }

/-- C6 witness: on `c6Db`, member user 1 receives the group's reviews and
non-member user 2 receives 403. -/
theorem groupReviews_member_gate_witness :
    ((1 : Nat) ≠ 0 ∧ (2 : Nat) ≠ 0 ∧ isMember c6Db 7 1 = true ∧
      isMember c6Db 7 2 = false) ∧
    getGroupReviews c6Db (some 1) 7 =
      .ok ((sortFeed (groupCandidates c6Db 7)).map formatGroupRow) ∧
    getGroupReviews c6Db (some 2) 7 = .error (403, "Not a member of this group") := by
  have h1 := groupReviews_member_gate c6Db 1 7 (by decide)
  have h2 := groupReviews_member_gate c6Db 2 7 (by decide)
  exact ⟨⟨by decide, by decide, by decide, by decide⟩,
    h1.2.1.mpr (by decide), h2.1.mpr (by decide)⟩

end Voxa

namespace Voxa

/-- Two reviews with equal `createdAt` timestamps and distinct ids, by the
same author, for the ordering counterexample. -/
def tieReviewA : Review :=
  { id := 1, userId := 1, placeId := "p1", rating := 5, createdAt := 100 }

/-- Second tied review (larger primary key, same timestamp). -/
def tieReviewB : Review :=
  { id := 2, userId := 1, placeId := "p2", rating := 4, createdAt := 100 }

/-- Author row shared by the tied reviews. -/
def tieUser : User := { id := 1, username := "alice" }

/-- C7 counterexample: the queries order only by `created_at DESC`, so for two
reviews with equal timestamps both orders satisfy the ordering contract — the
output order is not fully deterministic, and in particular the contract also
admits the order in which equal-timestamp rows are NOT primary-key ascending
(here `tieReviewB` with id 2 precedes `tieReviewA` with id 1). -/
theorem feedOrder_tie_nondeterminism_cex :
    validFeedOrder [(tieReviewA, tieUser), (tieReviewB, tieUser)]
        [(tieReviewA, tieUser), (tieReviewB, tieUser)] ∧
      validFeedOrder [(tieReviewA, tieUser), (tieReviewB, tieUser)]
        [(tieReviewB, tieUser), (tieReviewA, tieUser)] ∧
      [(tieReviewB, tieUser), (tieReviewA, tieUser)] ≠
        [(tieReviewA, tieUser), (tieReviewB, tieUser)] ∧
      tieReviewA.createdAt = tieReviewB.createdAt ∧ tieReviewA.id < tieReviewB.id := by
  have hsAB : newestFirstSorted [(tieReviewA, tieUser), (tieReviewB, tieUser)] := by
    simp [newestFirstSorted, List.sorted_cons, tieReviewA, tieReviewB]
  have hsBA : newestFirstSorted [(tieReviewB, tieUser), (tieReviewA, tieUser)] := by
    simp [newestFirstSorted, List.sorted_cons, tieReviewA, tieReviewB]
  refine ⟨⟨List.Perm.refl _, hsAB⟩,
    ⟨List.Perm.swap (tieReviewA, tieUser) (tieReviewB, tieUser) [], hsBA⟩,
    by decide, rfl, by decide⟩

/-- C7 (amended): every feed orders its result newest first by `createdAt`
(the model's sort is a newest-first permutation of the candidate set for all
three feeds), but the queries add no tie-break key, so the relative order of
equal-`createdAt` rows is left to the database and the output order is not
fully deterministic. -/
theorem feedOrder_newest_first (db : DB) (v gid : Nat) :
    newestFirstSorted (sortFeed (communityCandidates db)) ∧
    (sortFeed (communityCandidates db)).Perm (communityCandidates db) ∧
    newestFirstSorted (sortFeed (followingCandidates db v)) ∧
    (sortFeed (followingCandidates db v)).Perm (followingCandidates db v) ∧
    newestFirstSorted (sortFeed (groupCandidates db gid)) ∧
    (sortFeed (groupCandidates db gid)).Perm (groupCandidates db gid) :=
  ⟨sortFeed_sorted _, sortFeed_perm _, sortFeed_sorted _, sortFeed_perm _,
    sortFeed_sorted _, sortFeed_perm _⟩

/-- C8: double-like is rejected with 400 and leaves the like rows (and hence
the like count) unchanged; unliking with no existing like row still succeeds
with 204 and is a no-op on the database. -/
theorem like_unlike_idempotent (db : DB) (uid rid now1 now2 : Nat)
    (huid : uid ≠ 0) :
    (likeHandler (likeHandler db (some uid) rid now1).2 (some uid) rid now2 =
      (.error (400, "Already liked this review"),
        (likeHandler db (some uid) rid now1).2)) ∧
    (isLikedBy db rid uid = false →
      unlikeHandler db (some uid) rid = (.ok 204, db)) := by
  have htr : truthyId (some uid) = some uid := by simp [truthyId, huid]
  constructor
  · cases h : isLikedBy db rid uid
    · have hafter : isLikedBy
          { db with reviewLikes := db.reviewLikes ++
              [{ id := nextLikeId db, reviewId := rid, userId := uid,
                 createdAt := now1 }] } rid uid = true := by
        simp [isLikedBy, List.any_append]
      simp [likeHandler, htr, h, hafter]
    · simp [likeHandler, htr, h]
  · intro h
    have hfilter : db.reviewLikes.filter
        (fun l => !(l.reviewId == rid && l.userId == uid)) = db.reviewLikes := by
      apply List.filter_eq_self.mpr
      intro l hl
      have hnot : ¬(l.reviewId == rid && l.userId == uid) = true := by
        intro hcontra
        have : isLikedBy db rid uid = true := by
          simp only [isLikedBy, List.any_eq_true]
          exact ⟨l, hl, hcontra⟩
        rw [this] at h
        cases h
      simp [hnot]
    simp only [unlikeHandler, htr]
    rw [hfilter]

/-- C8 witness: on the empty database, user 1 likes review 1, a second like is
rejected with 400 and leaves the state unchanged, and an unlike with no like
row succeeds as a no-op. -/
theorem like_unlike_idempotent_witness :
    ((1 : Nat) ≠ 0 ∧ isLikedBy {} 1 1 = false) ∧
    (likeHandler (likeHandler {} (some 1) 1 10).2 (some 1) 1 11 =
      (.error (400, "Already liked this review"),
        (likeHandler {} (some 1) 1 10).2)) ∧
    unlikeHandler {} (some 1) 1 = (.ok 204, {}) := by
  have h := like_unlike_idempotent {} 1 1 10 11 (by decide)
  exact ⟨⟨by decide, by decide⟩, h.1, h.2 (by decide)⟩

end Voxa

namespace Voxa

/-- A POST /reviews body carrying `placeId` and `rating` but no location. -/
def c9Body : ReviewBody := { placeId := some "place-1", rating := some 5 }

/-- Empty database for the review-creation counterexample. -/
def c9Db : DB := {}

/-- C9 counterexample: an authenticated request carrying `placeId` and
`rating` but no `location` does NOT succeed — `processLocation(undefined)`
returns null and the handler fails with 400 "Invalid location data", creating
nothing. -/
theorem postReview_missing_location_cex :
    postReview c9Db (some 1) c9Body 10 =
      (.error (400, "Invalid location data"), c9Db) := rfl

/-- C9 (amended): besides the documented 400 on missing `placeId`/`rating`
and 403 on a non-member `groupId`, POST /reviews also requires a location
that survives `processLocation`: with the other gates passed, a missing
location fails with 400 "Invalid location data", and a successfully processed
location yields 201 with the new review appended. -/
theorem postReview_location_required (db : DB) (uid : Nat) (body : ReviewBody)
    (now : Nat) (huid : uid ≠ 0) (hp : strFalsy body.placeId = false)
    (hr : intFalsy body.rating = false) (hg : groupGate db uid body = false) :
    (body.location = none →
      postReview db (some uid) body now =
        (.error (400, "Invalid location data"), db)) ∧
    (∀ ploc, processLocation body.location none none = some ploc →
      postReview db (some uid) body now =
        (.ok (201, mkNewReview db uid body ploc now),
          { db with reviews := db.reviews ++ [mkNewReview db uid body ploc now] })) := by
  have htr : truthyId (some uid) = some uid := by simp [truthyId, huid]
  constructor
  · intro hl
    simp [postReview, htr, hp, hr, hg, hl, processLocation]
  · intro ploc hploc
    simp [postReview, htr, hp, hr, hg, hploc]

/-- C9 witness: the amended theorem applied to the concrete missing-location
request of the counterexample database. -/
theorem postReview_location_required_witness :
    ((1 : Nat) ≠ 0 ∧ strFalsy c9Body.placeId = false ∧
      intFalsy c9Body.rating = false ∧ groupGate c9Db 1 c9Body = false) ∧
    postReview c9Db (some 1) c9Body 10 =
      (.error (400, "Invalid location data"), c9Db) := by
  have h := postReview_location_required c9Db 1 c9Body 10 (by decide) (by decide)
    (by decide) (by decide)
  exact ⟨⟨by decide, by decide, by decide, by decide⟩, h.1 rfl⟩

/-- A location JSON value sitting on the prime meridian: latitude 51.48,
longitude 0 (Greenwich). -/
def c10Coords : CoordsJson := { lat := some (2637/50), lng := some 0 }

/-- The location object with the zero coordinate. -/
def c10Loc : LocationJson :=
  { coordinates := some c10Coords, formatted_address := some "Greenwich" }

/-- A stored review carrying the zero-coordinate location. -/
def c10Review : Review :=
  { id := 1, userId := 1, placeId := "p1", rating := 5,
    location := some c10Loc, createdAt := 10 }

/-- The author row of the stored review. -/
def c10User : User := { id := 1, username := "alice" }

/-- A POST /reviews body carrying the zero-coordinate location. -/
def c10Body : ReviewBody :=
  { placeId := some "p1", rating := some 5, location := some c10Loc }

/-- Empty database for the zero-coordinate scenario. -/
def c10Db : DB := {}

/-- C10: a location whose `coordinates.lat` or `coordinates.lng` equals 0 is
conflated with a missing coordinate by the truthiness check: `processLocation`
returns null, the feed formatting drops the stored location (and with it any
distance annotation), and creating a review with such a location fails with
400 "Invalid location data". -/
theorem processLocation_zero_coord_dropped (loc : LocationJson) (c : CoordsJson)
    (uLat uLng : Option ℚ) (db : DB) (viewer : Option Nat) (r : Review)
    (u : User) (uid : Nat) (body : ReviewBody) (now : Nat)
    (hc : loc.coordinates = some c) (h0 : c.lat = some 0 ∨ c.lng = some 0)
    (hr : r.location = some loc) (huid : uid ≠ 0)
    (hp : strFalsy body.placeId = false) (hrt : intFalsy body.rating = false)
    (hg : groupGate db uid body = false) (hb : body.location = some loc) :
    processLocation (some loc) uLat uLng = none ∧
    (formatCommunityRow db viewer uLat uLng (r, u)).location = none ∧
    postReview db (some uid) body now =
      (.error (400, "Invalid location data"), db) := by
  have hzero : (qFalsy c.lat || qFalsy c.lng) = true := by
    rcases h0 with h | h <;> simp [qFalsy, h]
  have hpl : ∀ a b : Option ℚ, processLocation (some loc) a b = none := by
    intro a b
    simp [processLocation, hc, hzero]
  have htr : truthyId (some uid) = some uid := by simp [truthyId, huid]
  refine ⟨hpl uLat uLng, ?_, ?_⟩
  · simp [formatCommunityRow, hr, hpl]
  · have hpl' : processLocation body.location none none = none := by
      rw [hb]
      exact hpl none none
    simp [postReview, htr, hp, hrt, hg, hpl']

/-- C10 witness: Greenwich (`lng = 0`) — its location is nulled by
`processLocation`, dropped from a community row, and rejected on creation. -/
theorem processLocation_zero_coord_dropped_witness :
    (c10Loc.coordinates = some c10Coords ∧ c10Coords.lng = some 0 ∧
      c10Review.location = some c10Loc ∧ c10Body.location = some c10Loc) ∧
    processLocation (some c10Loc) none none = none ∧
    (formatCommunityRow c10Db none none none (c10Review, c10User)).location = none ∧
    postReview c10Db (some 1) c10Body 10 =
      (.error (400, "Invalid location data"), c10Db) := by
  have h := processLocation_zero_coord_dropped c10Loc c10Coords none none c10Db
    none c10Review c10User 1 c10Body 10 rfl (Or.inr rfl) rfl (by decide)
    (by decide) (by decide) (by decide) rfl
  exact ⟨⟨rfl, rfl, rfl, rfl⟩, h⟩

end Voxa
